import Mathlib

/-!
Shallow embedding of `pazel/parse_imports.py`: the import extractor
(`get_imports`), the import resolver (`infer_import_type`) and the
public-interface checker (`_in_public_interface`).

Filesystem access (`os.path.exists`, `os.path.isdir`, `os.path.isfile`,
opening files), `ast.parse`, `os.path.relpath` and the two black-box
helpers `is_installed` / `contains_python_file` from `pazel.helpers` are
modelled as components of a read-only `World`.  Python exceptions that the
code does not catch are modelled with `Except`; the ones it catches
(`IOError` on read, `SyntaxError` on parse) are modelled by `Option`
results of the corresponding `World` operations.
-/

namespace Pazel

/-- Python `os.path.join a b` for a relative second component on POSIX. -/
def joinPath (a b : String) : String := a ++ "/" ++ b

/-- Python `s.replace('.', '/')`. -/
def dotsToSlashes (s : String) : String :=
  String.mk (s.data.map (fun c => if c = '.' then '/' else c))

/-- Python `s.replace('/', '.')`. -/
def slashesToDots (s : String) : String :=
  String.mk (s.data.map (fun c => if c = '/' then '.' else c))

/-- Python `s[:-3]` (drop the trailing `.py`). -/
def dropLast3 (s : String) : String :=
  String.mk (s.data.take (s.data.length - 3))

/-- Python string interpolation `'%s' % x` where `x` is a string or `None`. -/
def pyStrOfOpt : Option String → String
  | none => "None"
  | some s => s

/-- Helper for `pyFind`: first index at which `sub` occurs in the list, else -1. -/
def pyFindAux (sub : List Char) : List Char → Int → Int
  | [], i => if sub.isPrefixOf ([] : List Char) then i else -1
  | c :: rest, i => if sub.isPrefixOf (c :: rest) then i else pyFindAux sub rest (i + 1)

/-- Python `s.find(sub)`: index of the first occurrence of `sub` in `s`, or -1. -/
def pyFind (s sub : String) : Int := pyFindAux sub.data s.data 0

/-- Assignment targets, as far as the checker inspects them: `ast.Name`
(which has an `.id`) versus every other node kind (accessing `.id` raises
`AttributeError`). -/
inductive PyTarget where
  | name (id : String)
  | other

/-- Expressions, as far as the checker inspects them: string literals
(`ast.Str`, which has `.s`), literal sequences (`ast.List` / `ast.Tuple`,
which have `.elts`), and everything else (accessing `.s` or `.elts`
raises `AttributeError`). -/
inductive PyExpr where
  | strLit (s : String)
  | seqLit (elts : List PyExpr)
  | other

/-- Top-level statements, as far as `get_imports` and the checker
distinguish them: `ast.Assign`, `ast.ImportFrom`, `ast.Import`, rest. -/
inductive PyStmt where
  | assign (targets : List PyTarget) (value : PyExpr)
  | importFrom (module : Option String) (names : List String)
  | importPlain (names : List String)
  | other

/-- Python exceptions that escape the embedded code. -/
inductive PyExc where
  | attributeError
deriving DecidableEq

/-- Python values returned by `_in_public_interface`: `True` / `False`, or
the raw integer that `str.find` returns on the fallback path. -/
inductive PyValue where
  | bool (b : Bool)
  | int (n : Int)
deriving DecidableEq

/-- Python truthiness of a `PyValue` (`bool(x)`): nonzero integers,
including -1, are truthy. -/
def PyValue.truthy : PyValue → Bool
  | .bool b => b
  | .int n => if n = 0 then false else true

/-- Read-only model of the environment: filesystem probes, file reading
(`none` = `IOError`), `ast.parse` (`none` = `SyntaxError`), and the
black-box helpers `contains_python_file`, `is_installed`,
`os.path.relpath`. -/
structure World where
  pathExists : String → Bool
  isdir : String → Bool
  isfile : String → Bool
  readFile : String → Option String
  parse : String → Option (List PyStmt)
  containsPythonFile : String → Bool
  isInstalled : String → Option String → Bool → Bool
  relpath : String → String → String

/-- A custom inference rule: `rule.holds(project_root, base, unknown)`
returning `(packages or None, modules or None)`. -/
abbrev CustomRule : Type :=
  String → String → Option String → Option (List String) × Option (List String)

/-- Inner loop of `_in_public_interface` over `node.value.elts`: compare
`element.s` with `unknown`; a non-string element has no `.s`, raising
`AttributeError` (in source order, before later elements are compared). -/
def scanElts (unknown : String) : List PyExpr → Except PyExc Bool
  | [] => .ok false
  | PyExpr.strLit s :: rest =>
      if s = unknown then .ok true else scanElts unknown rest
  | _ :: _ => .error .attributeError

/-- Outer loop of `_in_public_interface` over the top-level statements of
the entry-point file: for each single-target `Assign`, read
`node.targets[0].id` (raising `AttributeError` on a non-`Name` target);
when the target is `__all__`, read `node.value.elts` (raising on a
non-sequence value) and compare each element with `unknown`. -/
def scanStmts (unknown : String) : List PyStmt → Except PyExc Bool
  | [] => .ok false
  | PyStmt.assign targets value :: rest =>
      match targets with
      | [t] =>
          match t with
          | PyTarget.name id =>
              if id = "__all__" then
                match value with
                | PyExpr.seqLit elts =>
                    match scanElts unknown elts with
                    | .ok true => .ok true
                    | .ok false => scanStmts unknown rest
                    | .error e => .error e
                | _ => .error .attributeError
              else scanStmts unknown rest
          | PyTarget.other => .error .attributeError
      | _ => scanStmts unknown rest
  | _ :: rest => scanStmts unknown rest

/-- `_in_public_interface(package_path, unknown)`: open
`package_path/__init__.py` (an `IOError` returns `False`); if `unknown`
is `None` return `True`; parse the source (a `SyntaxError` returns
`False`); scan for an `__all__` declaration containing `unknown`; if
none, fall back to `init_source.find(unknown)` returned raw. -/
def _in_public_interface (w : World) (package_path : String)
    (unknown : Option String) : Except PyExc PyValue :=
  let init_path := joinPath package_path "__init__.py"
  match w.readFile init_path with
  | none => .ok (PyValue.bool false)
  | some init_source =>
      match unknown with
      | none => .ok (PyValue.bool true)
      | some u =>
          match w.parse init_source with
          | none => .ok (PyValue.bool false)
          | some stmts =>
              match scanStmts u stmts with
              | .ok true => .ok (PyValue.bool true)
              | .ok false => .ok (PyValue.int (pyFind init_source u))
              | .error e => .error e

/-- How one `(base, unknown)` pair is classified by `infer_import_type`. -/
inductive Outcome where
  | discarded
  | custom (ps ms : List String)
  | toModules (m : String)
  | toPackages (p : String)

/-- Strings a classified pair appends to the `packages` accumulator. -/
def Outcome.pkgAdd : Outcome → List String
  | .discarded => []
  | .custom ps _ => ps
  | .toModules _ => []
  | .toPackages p => [p]

/-- Strings a classified pair appends to the `modules` accumulator. -/
def Outcome.modAdd : Outcome → List String
  | .discarded => []
  | .custom _ ms => ms
  | .toModules m => [m]
  | .toPackages _ => []

/-- The custom-rules loop of `infer_import_type`: try rules in order; the
first rule whose packages or modules result is not `None` matches, its
non-`None` results are kept and the loop breaks. -/
def tryRules (rules : List CustomRule) (project_root base : String)
    (unknown : Option String) : Option (List String × List String) :=
  match rules with
  | [] => none
  | r :: rest =>
      let res := r project_root base unknown
      if res.1.isSome || res.2.isSome then
        some (res.1.getD [], res.2.getD [])
      else tryRules rest project_root base unknown

/-- Last two steps of the chain: a module local to the script directory,
else the fallback that files `base` as a package. -/
def localStep (w : World) (project_root script_dir base : String) : Outcome :=
  let local_module_path := joinPath script_dir (dotsToSlashes base ++ ".py")
  if w.pathExists local_module_path then
    Outcome.toModules (dropLast3 (slashesToDots (w.relpath local_module_path project_root)))
  else Outcome.toPackages base

/-- The per-pair body of the loop in `infer_import_type`: the ordered
decision chain for one `(base, unknown)` pair.  An uncaught exception
from `_in_public_interface` propagates. -/
def classifyOne (w : World) (project_root script_dir : String)
    (contains_pre_installed_packages : Bool) (custom_rules : List CustomRule)
    (base : String) (unknown : Option String) : Except PyExc Outcome :=
  if w.isInstalled base unknown contains_pre_installed_packages then
    .ok Outcome.discarded
  else
    match tryRules custom_rules project_root base unknown with
    | some (ps, ms) => .ok (Outcome.custom ps ms)
    | none =>
        let module_path := joinPath project_root (dotsToSlashes base ++ ".py")
        if w.pathExists module_path then .ok (Outcome.toModules base)
        else
          let dotted_path := base ++ "." ++ pyStrOfOpt unknown
          let package_path := joinPath project_root (dotsToSlashes dotted_path)
          let module_path2 := joinPath project_root (dotsToSlashes dotted_path ++ ".py")
          let unknown_is_package := w.isdir package_path && w.containsPythonFile package_path
          let unknown_is_module := w.isfile module_path2
          if unknown_is_package then .ok (Outcome.toModules (dotted_path ++ ".__init__"))
          else if unknown_is_module then .ok (Outcome.toModules dotted_path)
          else
            let base_package_path := joinPath project_root (dotsToSlashes base)
            if w.isdir base_package_path then
              match _in_public_interface w base_package_path unknown with
              | .error e => .error e
              | .ok v =>
                  if v.truthy then .ok (Outcome.toModules (base ++ ".__init__"))
                  else .ok (localStep w project_root script_dir base)
            else .ok (localStep w project_root script_dir base)

/-- The accumulating loop of `infer_import_type` over all pairs. -/
def inferAux (w : World) (project_root script_dir : String)
    (contains_pre_installed_packages : Bool) (custom_rules : List CustomRule) :
    List (String × Option String) → List String → List String →
    Except PyExc (List String × List String)
  | [], packages, modules => .ok (packages, modules)
  | (base, unknown) :: rest, packages, modules =>
      match classifyOne w project_root script_dir contains_pre_installed_packages
          custom_rules base unknown with
      | .error e => .error e
      | .ok o =>
          inferAux w project_root script_dir contains_pre_installed_packages
            custom_rules rest (packages ++ o.pkgAdd) (modules ++ o.modAdd)

/-- `infer_import_type(all_imports, project_root, script_dir, ...)`:
classify every pair and return `set(packages), set(modules)`. -/
def infer_import_type (w : World) (all_imports : List (String × Option String))
    (project_root script_dir : String) (contains_pre_installed_packages : Bool)
    (custom_rules : List CustomRule) :
    Except PyExc (Finset String × Finset String) :=
  match inferAux w project_root script_dir contains_pre_installed_packages
      custom_rules all_imports [] [] with
  | .error e => .error e
  | .ok (packages, modules) => .ok (packages.toFinset, modules.toFinset)

/-- Python `module if module else "__init__"` on an optional module name
(`None` and the empty string are falsy). -/
def pyFromBase : Option String → String
  | none => "__init__"
  | some s => if s = "" then "__init__" else s

/-- The statement loop of `get_imports` over a parsed module body. -/
def get_imports_body (body : List PyStmt) :
    List (String × Option String) × List (String × Option String) :=
  body.foldl
    (fun acc node =>
      match node with
      | PyStmt.importFrom module names =>
          (acc.1, acc.2 ++ names.map (fun n => (pyFromBase module, some n)))
      | PyStmt.importPlain names =>
          (acc.1 ++ names.map (fun n => (n, (none : Option String))), acc.2)
      | _ => acc)
    ([], [])

/-- `get_imports(script_source)`: parse the source (a `SyntaxError`
propagates, modelled as `none`) and collect plain imports and
from-imports from the top-level statements. -/
def get_imports (w : World) (script_source : String) :
    Option (List (String × Option String) × List (String × Option String)) :=
  (w.parse script_source).map get_imports_body

/-! Helper lemmas. -/

/-- String concatenation is associative. -/
theorem str_append_assoc (a b c : String) : a ++ b ++ c = a ++ (b ++ c) := by
  cases a with
  | mk l1 =>
    cases b with
    | mk l2 =>
      cases c with
      | mk l3 =>
        show String.mk (l1 ++ l2 ++ l3) = String.mk (l1 ++ (l2 ++ l3))
        rw [List.append_assoc]

/-- The dotted candidate that `infer_import_type` builds for a plain
imported base (`unknown = None`) is the literal string `base + ".None"`. -/
theorem pyNone_dotted (b : String) :
    b ++ "." ++ pyStrOfOpt none = b ++ ".None" := by
  show b ++ "." ++ "None" = b ++ ".None"
  rw [str_append_assoc]
  rfl

/-- The final two steps classify the pair as one local module or as the
fallback package named `base`. -/
theorem localStep_shape (w : World) (root sdir b : String) :
    (∃ m, localStep w root sdir b = Outcome.toModules m)
    ∨ localStep w root sdir b = Outcome.toPackages b := by
  simp only [localStep]
  split
  · exact Or.inl ⟨_, rfl⟩
  · exact Or.inr rfl

/-! Claim C1. -/

/-- Claim C1: every `(base, attribute)` pair is classified into at most
one outcome — discarded as pre-installed, matched by a custom rule, one
entry added to `modules`, or one entry (the base) added to `packages` —
and a `toModules` outcome contributes exactly one module and no package
while a `toPackages` outcome contributes exactly one package and no
module; moreover a pair that fails every step of the chain (not
installed, no custom rule, no local module file, no package or module
match for the dotted candidate, no public-interface match, no
script-local module) is always filed into `packages` as `base`. -/
theorem classification_partition :
    (∀ (w : World) (root sdir : String) (pre : Bool) (rules : List CustomRule)
       (b : String) (u : Option String) (o : Outcome),
       classifyOne w root sdir pre rules b u = Except.ok o →
       o = Outcome.discarded ∨ (∃ ps ms, o = Outcome.custom ps ms)
         ∨ (∃ m, o = Outcome.toModules m) ∨ o = Outcome.toPackages b)
    ∧ (∀ m, (Outcome.toModules m).pkgAdd = [] ∧ (Outcome.toModules m).modAdd = [m])
    ∧ (∀ p, (Outcome.toPackages p).pkgAdd = [p] ∧ (Outcome.toPackages p).modAdd = [])
    ∧ (∀ (w : World) (root sdir : String) (pre : Bool) (rules : List CustomRule)
       (b : String) (u : Option String),
       w.isInstalled b u pre = false →
       tryRules rules root b u = none →
       w.pathExists (joinPath root (dotsToSlashes b ++ ".py")) = false →
       (w.isdir (joinPath root (dotsToSlashes (b ++ "." ++ pyStrOfOpt u))) &&
         w.containsPythonFile (joinPath root (dotsToSlashes (b ++ "." ++ pyStrOfOpt u)))) = false →
       w.isfile (joinPath root (dotsToSlashes (b ++ "." ++ pyStrOfOpt u) ++ ".py")) = false →
       (w.isdir (joinPath root (dotsToSlashes b)) = false ∨
         (∃ v, _in_public_interface w (joinPath root (dotsToSlashes b)) u = Except.ok v ∧
           v.truthy = false)) →
       w.pathExists (joinPath sdir (dotsToSlashes b ++ ".py")) = false →
       classifyOne w root sdir pre rules b u = Except.ok (Outcome.toPackages b)) := by
  refine ⟨?_, fun m => ⟨rfl, rfl⟩, fun p => ⟨rfl, rfl⟩, ?_⟩
  · intro w root sdir pre rules b u o h
    simp only [classifyOne] at h
    split at h
    · cases h; exact Or.inl rfl
    · split at h
      · cases h; exact Or.inr (Or.inl ⟨_, _, rfl⟩)
      · split at h
        · cases h; exact Or.inr (Or.inr (Or.inl ⟨_, rfl⟩))
        · split at h
          · cases h; exact Or.inr (Or.inr (Or.inl ⟨_, rfl⟩))
          · split at h
            · cases h; exact Or.inr (Or.inr (Or.inl ⟨_, rfl⟩))
            · split at h
              · split at h
                · exact absurd h (by simp)
                · split at h
                  · cases h; exact Or.inr (Or.inr (Or.inl ⟨_, rfl⟩))
                  · rcases localStep_shape w root sdir b with ⟨m, hm⟩ | hp
                    · rw [hm] at h; cases h; exact Or.inr (Or.inr (Or.inl ⟨_, rfl⟩))
                    · rw [hp] at h; cases h; exact Or.inr (Or.inr (Or.inr rfl))
              · rcases localStep_shape w root sdir b with ⟨m, hm⟩ | hp
                · rw [hm] at h; cases h; exact Or.inr (Or.inr (Or.inl ⟨_, rfl⟩))
                · rw [hp] at h; cases h; exact Or.inr (Or.inr (Or.inr rfl))
  · intro w root sdir pre rules b u h1 h2 h3 h4 h5 h6 h7
    have hls : localStep w root sdir b = Outcome.toPackages b := by
      simp [localStep, h7]
    rcases h6 with h6 | ⟨v, hv, htr⟩
    · simp [classifyOne, h1, h2, h3, h4, h5, h6, hls]
    · by_cases hd : w.isdir (joinPath root (dotsToSlashes b))
      · simp [classifyOne, h1, h2, h3, h4, h5, hd, hv, htr, hls]
      · simp [classifyOne, h1, h2, h3, h4, h5, hd, hls]

/-- World with no installed names, no custom rules, an empty filesystem
and no readable files. -/
def w1 : World :=
  World.mk (fun _ => false) (fun _ => false) (fun _ => false) (fun _ => none)
    (fun _ => none) (fun _ => false) (fun _ _ _ => false) (fun _ _ => "")

/-- Witness for C1 at the pair `("requests", None)` on an empty project:
the fallback files it into `packages`. -/
theorem classification_partition_witness :
    (Outcome.toPackages "requests" = Outcome.discarded
      ∨ (∃ ps ms, Outcome.toPackages "requests" = Outcome.custom ps ms)
      ∨ (∃ m, Outcome.toPackages "requests" = Outcome.toModules m)
      ∨ Outcome.toPackages "requests" = Outcome.toPackages "requests")
    ∧ classifyOne w1 "/proj" "/proj" false [] "requests" none
        = Except.ok (Outcome.toPackages "requests") :=
  ⟨classification_partition.1 w1 "/proj" "/proj" false [] "requests" none
      (Outcome.toPackages "requests") rfl,
   classification_partition.2.2.2 w1 "/proj" "/proj" false [] "requests" none
      rfl rfl rfl rfl rfl (Or.inl rfl) rfl⟩

/-! Claim C2. -/

/-- Claim C2: custom rules are tried strictly in order — a rule whose
packages and modules results are both `None` is skipped, and the first
rule with a non-`None` result ends the scan with its results — and when
a rule matches a pair that is not pre-installed, the classification is
that rule's results regardless of the filesystem: no heuristic below
runs, even if a local module file for `base` exists. -/
theorem custom_rules_first_match_preempts :
    (∀ (w : World) (root sdir : String) (pre : Bool) (rules : List CustomRule)
       (b : String) (u : Option String) (ps ms : List String),
       w.isInstalled b u pre = false →
       tryRules rules root b u = some (ps, ms) →
       classifyOne w root sdir pre rules b u = Except.ok (Outcome.custom ps ms))
    ∧ (∀ (root b : String) (u : Option String) (r : CustomRule) (rest : List CustomRule),
       ((r root b u).1.isSome || (r root b u).2.isSome) = false →
       tryRules (r :: rest) root b u = tryRules rest root b u)
    ∧ (∀ (root b : String) (u : Option String) (r : CustomRule) (rest : List CustomRule),
       ((r root b u).1.isSome || (r root b u).2.isSome) = true →
       tryRules (r :: rest) root b u
         = some ((r root b u).1.getD [], (r root b u).2.getD [])) := by
  refine ⟨?_, ?_, ?_⟩
  · intro w root sdir pre rules b u ps ms hinst hrules
    simp [classifyOne, hinst, hrules]
  · intro root b u r rest h
    simp [tryRules, h]
  · intro root b u r rest h
    simp [tryRules, h]

/-- World whose project root contains the local module file `np.py`. -/
def wnp : World :=
  World.mk (fun p => p == "/proj/np.py") (fun _ => false) (fun _ => false)
    (fun _ => none) (fun _ => none) (fun _ => false) (fun _ _ _ => false)
    (fun _ _ => "")

/-- A custom rule mapping base `np` to the external package `numpy`. -/
def rnp : CustomRule := fun _ _ _ => (some ["numpy"], none)

/-- Witness for C2: the `numpy` rule pre-empts the filesystem heuristics
even though `/proj/np.py` exists. -/
theorem custom_rules_first_match_preempts_witness :
    classifyOne wnp "/proj" "/proj" false [rnp] "np" (some "array")
      = Except.ok (Outcome.custom ["numpy"] []) :=
  custom_rules_first_match_preempts.1 wnp "/proj" "/proj" false [rnp] "np"
    (some "array") ["numpy"] [] rfl rfl

/-! Claim C3. -/

/-- World with two packages: `pkg` whose entry point is the source
`thing = 1`, and `pkg2` whose entry point is the source `x = 1`. -/
def w3 : World :=
  World.mk (fun _ => false) (fun _ => false) (fun _ => false)
    (fun p =>
      if p == "pkg/__init__.py" then some "thing = 1"
      else if p == "pkg2/__init__.py" then some "x = 1" else none)
    (fun s =>
      if s == "thing = 1" then
        some [PyStmt.assign [PyTarget.name "thing"] PyExpr.other]
      else if s == "x = 1" then
        some [PyStmt.assign [PyTarget.name "x"] PyExpr.other]
      else none)
    (fun _ => false) (fun _ _ _ => false) (fun _ _ => "")

/-- Claim C3 is refuted by the code: the fallback returns the raw result
of `init_source.find(attribute)`.  For the attribute `thing` occurring at
position 0 of the source `thing = 1` the checker returns the integer 0,
which is falsy, although the substring occurs; for the attribute `zzz`
absent from the source `x = 1` it returns -1, which is truthy, although
the substring does not occur.  The docstring promises a bool meaning
membership, so the claim states the intent and the code is a slip. -/
theorem find_fallback_divergence :
    _in_public_interface w3 "pkg" (some "thing") = Except.ok (PyValue.int 0)
    ∧ (PyValue.int 0).truthy = false
    ∧ pyFind "thing = 1" "thing" = 0
    ∧ _in_public_interface w3 "pkg2" (some "zzz") = Except.ok (PyValue.int (-1))
    ∧ (PyValue.int (-1)).truthy = true
    ∧ pyFind "x = 1" "zzz" = -1 :=
  ⟨rfl, rfl, rfl, rfl, rfl, rfl⟩

/-! Claim C4. -/

/-- World with a package `pkg4` whose entry point is the readable,
parsable source `x.y = 1`: a single-target assignment whose target is an
attribute, not a name. -/
def w4 : World :=
  World.mk (fun _ => false) (fun _ => false) (fun _ => false)
    (fun p => if p == "pkg4/__init__.py" then some "x.y = 1" else none)
    (fun s =>
      if s == "x.y = 1" then some [PyStmt.assign [PyTarget.other] PyExpr.other]
      else none)
    (fun _ => false) (fun _ _ _ => false) (fun _ _ => "")

/-- World whose project root `/proj` contains a package directory `pkg4`
with the readable, parsable entry-point source `x.y = 1`, so that the
resolver's public-interface step is actually reached for base `pkg4`. -/
def w4c : World :=
  World.mk (fun _ => false) (fun p => p == "/proj/pkg4") (fun _ => false)
    (fun p => if p == "/proj/pkg4/__init__.py" then some "x.y = 1" else none)
    (fun s =>
      if s == "x.y = 1" then some [PyStmt.assign [PyTarget.other] PyExpr.other]
      else none)
    (fun _ => false) (fun _ _ _ => false) (fun _ _ => "")

/-- Counterexample to claim C4 as stated: on the readable, parsable
entry-point source `x.y = 1` (a top-level assignment to a non-name
target) the checker does not return false — reading `targets[0].id`
raises an `AttributeError` — and on a project whose package `pkg4` has
that entry point, the exception escapes the classification of the single
pair `("pkg4", "a")` out of the resolver. -/
theorem checker_attribute_error_counterexample :
    _in_public_interface w4 "pkg4" (some "a") = Except.error PyExc.attributeError
    ∧ infer_import_type w4c [("pkg4", some "a")] "/proj" "/proj" false []
        = Except.error PyExc.attributeError :=
  ⟨rfl, rfl⟩

/-- A top-level statement that the `__all__` scan passes over without
returning or raising: anything but an `Assign`, an `Assign` whose target
count differs from one, a single-`Name` assignment to a name other than
`__all__`, or an `__all__` assignment to a literal sequence in which the
scan finds neither the attribute nor a non-string element. -/
def skippedStmt (u : String) : PyStmt → Bool
  | PyStmt.assign [PyTarget.name id] value =>
      if id = "__all__" then
        match value with
        | PyExpr.seqLit elts =>
            match scanElts u elts with
            | Except.ok false => true
            | _ => false
        | _ => false
      else true
  | PyStmt.assign [PyTarget.other] _ => false
  | PyStmt.assign _ _ => true
  | _ => true

/-- The `__all__` scan ignores any prefix of skipped statements. -/
theorem scanStmts_skips (u : String) (pre rest : List PyStmt)
    (h : ∀ s ∈ pre, skippedStmt u s = true) :
    scanStmts u (pre ++ rest) = scanStmts u rest := by
  induction pre with
  | nil => rfl
  | cons s t ih =>
    have hs : skippedStmt u s = true := h s (by simp)
    have ih' : scanStmts u (t ++ rest) = scanStmts u rest :=
      ih (fun x hx => h x (by simp [hx]))
    cases s with
    | assign targets value =>
      cases targets with
      | nil => simpa [scanStmts] using ih'
      | cons t1 ts =>
        cases ts with
        | nil =>
          cases t1 with
          | name id =>
            by_cases hid : id = "__all__"
            · subst hid
              cases value with
              | strLit s2 => simp [skippedStmt] at hs
              | other => simp [skippedStmt] at hs
              | seqLit elts =>
                have hse : scanElts u elts = Except.ok false := by
                  simp only [skippedStmt, if_pos rfl] at hs
                  cases hse' : scanElts u elts with
                  | error e => rw [hse'] at hs; cases hs
                  | ok bb =>
                    cases bb with
                    | false => rfl
                    | true => rw [hse'] at hs; cases hs
                simpa [scanStmts, hse] using ih'
            · simpa [scanStmts, hid] using ih'
          | other => simp [skippedStmt] at hs
        | cons t2 ts2 => simpa [scanStmts] using ih'
    | importFrom m ns => simpa [scanStmts] using ih'
    | importPlain ns => simpa [scanStmts] using ih'
    | other => simpa [scanStmts] using ih'

/-- Claim C4 as amended: the only recovered failures are an unreadable
entry-point file and an unparsable entry-point file, both treated as
"not public" (false); a readable, parsable source containing — after any
statements the `__all__` scan skips, anywhere in the body — a top-level
single-target assignment to a non-name target, or an assignment of a
non-literal-sequence value to `__all__`, makes the scan raise an
`AttributeError`, and a scan that raises makes the exception escape the
classification of the pair out of the resolver. -/
theorem checker_recovers_only_read_and_parse_failures :
    (∀ (w : World) (p : String) (u : Option String),
       w.readFile (joinPath p "__init__.py") = none →
       _in_public_interface w p u = Except.ok (PyValue.bool false))
    ∧ (∀ (w : World) (p src u : String),
       w.readFile (joinPath p "__init__.py") = some src →
       w.parse src = none →
       _in_public_interface w p (some u) = Except.ok (PyValue.bool false))
    ∧ (∀ (u : String) (pre : List PyStmt) (v : PyExpr) (rest : List PyStmt),
       (∀ s ∈ pre, skippedStmt u s = true) →
       scanStmts u (pre ++ PyStmt.assign [PyTarget.other] v :: rest)
         = Except.error PyExc.attributeError)
    ∧ (∀ (u : String) (pre : List PyStmt) (value : PyExpr) (rest : List PyStmt),
       (∀ elts, value ≠ PyExpr.seqLit elts) →
       (∀ s ∈ pre, skippedStmt u s = true) →
       scanStmts u (pre ++ PyStmt.assign [PyTarget.name "__all__"] value :: rest)
         = Except.error PyExc.attributeError)
    ∧ (∀ (w : World) (root sdir : String) (pre : Bool) (rules : List CustomRule)
       (b u src : String) (stmts : List PyStmt),
       w.isInstalled b (some u) pre = false →
       tryRules rules root b (some u) = none →
       w.pathExists (joinPath root (dotsToSlashes b ++ ".py")) = false →
       (w.isdir (joinPath root (dotsToSlashes (b ++ "." ++ pyStrOfOpt (some u)))) &&
         w.containsPythonFile (joinPath root (dotsToSlashes (b ++ "." ++ pyStrOfOpt (some u))))) = false →
       w.isfile (joinPath root (dotsToSlashes (b ++ "." ++ pyStrOfOpt (some u)) ++ ".py")) = false →
       w.isdir (joinPath root (dotsToSlashes b)) = true →
       w.readFile (joinPath (joinPath root (dotsToSlashes b)) "__init__.py") = some src →
       w.parse src = some stmts →
       scanStmts u stmts = Except.error PyExc.attributeError →
       infer_import_type w [(b, some u)] root sdir pre rules
         = Except.error PyExc.attributeError) := by
  refine ⟨?_, ?_, ?_, ?_, ?_⟩
  · intro w p u h
    simp [_in_public_interface, h]
  · intro w p src u h1 h2
    simp [_in_public_interface, h1, h2]
  · intro u pre v rest h
    rw [scanStmts_skips u pre _ h]
    simp [scanStmts]
  · intro u pre value rest hv h
    rw [scanStmts_skips u pre _ h]
    cases value with
    | strLit s2 => simp [scanStmts]
    | other => simp [scanStmts]
    | seqLit elts => exact absurd rfl (hv elts)
  · intro w root sdir pre rules b u src stmts h1 h2 h3 h4 h5 h6 h7 h8 h9
    simp [infer_import_type, inferAux, classifyOne, _in_public_interface,
      h1, h2, h3, h4, h5, h6, h7, h8, h9]

/-- World whose files cannot be read at all. -/
def w4a : World :=
  World.mk (fun _ => false) (fun _ => false) (fun _ => false) (fun _ => none)
    (fun _ => none) (fun _ => false) (fun _ _ _ => false) (fun _ _ => "")

/-- World whose files all read as the unparsable source `(`. -/
def w4b : World :=
  World.mk (fun _ => false) (fun _ => false) (fun _ => false)
    (fun _ => some "(") (fun _ => none) (fun _ => false) (fun _ _ _ => false)
    (fun _ _ => "")

/-- Witness for the amended C4: an unreadable file and an unparsable file
both yield false; a non-name-target assignment raises after three skipped
statements (a non-assign, an assignment to `x`, and an `__all__` list not
containing the attribute); a non-sequence `__all__` value raises after a
skipped statement; and on the project of `w4c` the exception escapes the
resolver for the pair `("pkg4", "a")`. -/
theorem checker_recovers_only_read_and_parse_failures_witness :
    _in_public_interface w4a "p" (some "a") = Except.ok (PyValue.bool false)
    ∧ _in_public_interface w4b "p" (some "a") = Except.ok (PyValue.bool false)
    ∧ scanStmts "a"
        ([PyStmt.other, PyStmt.assign [PyTarget.name "x"] PyExpr.other,
          PyStmt.assign [PyTarget.name "__all__"] (PyExpr.seqLit [PyExpr.strLit "y"])]
          ++ PyStmt.assign [PyTarget.other] PyExpr.other :: [PyStmt.other])
        = Except.error PyExc.attributeError
    ∧ scanStmts "a"
        ([PyStmt.other] ++ PyStmt.assign [PyTarget.name "__all__"] PyExpr.other :: [])
        = Except.error PyExc.attributeError
    ∧ infer_import_type w4c [("pkg4", some "a")] "/proj" "/proj" false []
        = Except.error PyExc.attributeError :=
  ⟨checker_recovers_only_read_and_parse_failures.1 w4a "p" (some "a") rfl,
   checker_recovers_only_read_and_parse_failures.2.1 w4b "p" "(" "a" rfl rfl,
   checker_recovers_only_read_and_parse_failures.2.2.1 "a" _ PyExpr.other _
     (by intro s hs; simp at hs; rcases hs with h | h | h <;> subst h <;> rfl),
   checker_recovers_only_read_and_parse_failures.2.2.2.1 "a" _ PyExpr.other _
     (fun _ h => PyExpr.noConfusion h)
     (by intro s hs; simp at hs; subst hs; rfl),
   checker_recovers_only_read_and_parse_failures.2.2.2.2 w4c "/proj" "/proj"
     false [] "pkg4" "a" "x.y = 1" [PyStmt.assign [PyTarget.other] PyExpr.other]
     rfl rfl rfl rfl rfl rfl rfl rfl rfl⟩

/-! Claim C5. -/

/-- Claim C5: for a project root containing the file `foo/bar.py` but no
file `foo.py` (and `foo/bar` not a directory), a pair `("foo", "bar")`
that is neither pre-installed nor matched by any custom rule resolves to
`modules = ("foo.bar")` and empty `packages`, via the
base.attribute-as-module step. -/
theorem resolve_base_attribute_module :
    ∀ (w : World) (root sdir : String) (pre : Bool) (rules : List CustomRule),
      w.isInstalled "foo" (some "bar") pre = false →
      tryRules rules root "foo" (some "bar") = none →
      w.pathExists (joinPath root "foo.py") = false →
      w.isdir (joinPath root "foo/bar") = false →
      w.isfile (joinPath root "foo/bar.py") = true →
      infer_import_type w [("foo", some "bar")] root sdir pre rules
        = Except.ok (∅, {"foo.bar"}) := by
  intro w root sdir pre rules h1 h2 h3 h4 h5
  have ed : dotsToSlashes "foo" = "foo" := rfl
  have e5 : dotsToSlashes "foo.bar" = "foo/bar" := rfl
  simp [infer_import_type, inferAux, classifyOne, pyStrOfOpt, Outcome.pkgAdd,
    Outcome.modAdd, ed, e5, h1, h2, h3, h4, h5]

/-- World whose project root `/proj` contains exactly the file
`foo/bar.py`. -/
def w5 : World :=
  World.mk (fun _ => false) (fun _ => false) (fun p => p == "/proj/foo/bar.py")
    (fun _ => none) (fun _ => none) (fun _ => false) (fun _ _ _ => false)
    (fun _ _ => "")

/-- Witness for C5 at the project root `/proj`. -/
theorem resolve_base_attribute_module_witness :
    infer_import_type w5 [("foo", some "bar")] "/proj" "/proj" false []
      = Except.ok (∅, {"foo.bar"}) :=
  resolve_base_attribute_module w5 "/proj" "/proj" false [] rfl rfl rfl rfl rfl

/-! Claim C6. -/

/-- Claim C6: for a project root containing the directory `foo` whose
entry-point file parses to statements whose `__all__` export list
declares `thing` (and no earlier chain step matching), the pair
`("foo", "thing")` resolves to `modules = ("foo.__init__")`. -/
theorem resolve_public_interface_export_list :
    ∀ (w : World) (root sdir : String) (pre : Bool) (rules : List CustomRule)
      (src : String) (stmts : List PyStmt),
      w.isInstalled "foo" (some "thing") pre = false →
      tryRules rules root "foo" (some "thing") = none →
      w.pathExists (joinPath root "foo.py") = false →
      w.isdir (joinPath root "foo/thing") = false →
      w.isfile (joinPath root "foo/thing.py") = false →
      w.isdir (joinPath root "foo") = true →
      w.readFile (joinPath (joinPath root "foo") "__init__.py") = some src →
      w.parse src = some stmts →
      scanStmts "thing" stmts = Except.ok true →
      infer_import_type w [("foo", some "thing")] root sdir pre rules
        = Except.ok (∅, {"foo.__init__"}) := by
  intro w root sdir pre rules src stmts h1 h2 h3 h4 h5 h6 h7 h8 h9
  have ed : dotsToSlashes "foo" = "foo" := rfl
  have e5 : dotsToSlashes "foo.thing" = "foo/thing" := rfl
  simp [infer_import_type, inferAux, classifyOne, _in_public_interface,
    PyValue.truthy, pyStrOfOpt, Outcome.pkgAdd, Outcome.modAdd,
    ed, e5, h1, h2, h3, h4, h5, h6, h7, h8, h9]

/-- World whose project root `/proj` contains the directory `foo` with an
entry-point file declaring the export list `__all__ = ["thing"]`. -/
def w6 : World :=
  World.mk (fun _ => false) (fun p => p == "/proj/foo") (fun _ => false)
    (fun p =>
      if p == "/proj/foo/__init__.py" then some "__all__ = [\"thing\"]" else none)
    (fun s =>
      if s == "__all__ = [\"thing\"]" then
        some [PyStmt.assign [PyTarget.name "__all__"]
          (PyExpr.seqLit [PyExpr.strLit "thing"])]
      else none)
    (fun _ => false) (fun _ _ _ => false) (fun _ _ => "")

/-- Witness for C6 at the project root `/proj`. -/
theorem resolve_public_interface_export_list_witness :
    infer_import_type w6 [("foo", some "thing")] "/proj" "/proj" false []
      = Except.ok (∅, {"foo.__init__"}) :=
  resolve_public_interface_export_list w6 "/proj" "/proj" false []
    "__all__ = [\"thing\"]"
    [PyStmt.assign [PyTarget.name "__all__"] (PyExpr.seqLit [PyExpr.strLit "thing"])]
    rfl rfl rfl rfl rfl rfl rfl rfl rfl

/-! Claim C7. -/

/-- Claim C7: the checker returns false whenever the entry-point file
cannot be opened or read — for every attribute, including the absent
sentinel — and returns true trivially for the absent sentinel whenever
the entry-point file can be read, without consulting the export list or
the source text. -/
theorem checker_unreadable_false_and_none_true :
    (∀ (w : World) (p : String) (u : Option String),
       w.readFile (joinPath p "__init__.py") = none →
       _in_public_interface w p u = Except.ok (PyValue.bool false))
    ∧ (∀ (w : World) (p src : String),
       w.readFile (joinPath p "__init__.py") = some src →
       _in_public_interface w p none = Except.ok (PyValue.bool true)) := by
  constructor
  · intro w p u h
    simp [_in_public_interface, h]
  · intro w p src h
    simp [_in_public_interface, h]

/-- World with no readable files. -/
def w7 : World :=
  World.mk (fun _ => false) (fun _ => false) (fun _ => false) (fun _ => none)
    (fun _ => none) (fun _ => false) (fun _ _ _ => false) (fun _ _ => "")

/-- World whose files all read as the source `x = 1`. -/
def w7r : World :=
  World.mk (fun _ => false) (fun _ => false) (fun _ => false)
    (fun _ => some "x = 1") (fun _ => none) (fun _ => false)
    (fun _ _ _ => false) (fun _ _ => "")

/-- Witness for C7: an unreadable entry point yields false even for the
absent sentinel, and a readable one yields true for the absent
sentinel. -/
theorem checker_unreadable_false_and_none_true_witness :
    _in_public_interface w7 "pkg" none = Except.ok (PyValue.bool false)
    ∧ _in_public_interface w7r "pkg" none = Except.ok (PyValue.bool true) :=
  ⟨checker_unreadable_false_and_none_true.1 w7 "pkg" none rfl,
   checker_unreadable_false_and_none_true.2 w7r "pkg" "x = 1" rfl⟩

/-! Claim C8. -/

/-- Claim C8: a top-level from-import contributes one `(base, name)`
tuple per imported name, in order, leaving the plain-import list
untouched; and the base substituted for an absent module name is the
sentinel `__init__`. -/
theorem get_imports_one_tuple_per_name :
    (∀ (w : World) (src : String) (body : List PyStmt) (module : Option String)
       (names : List String),
       w.parse src = some (body ++ [PyStmt.importFrom module names]) →
       get_imports w src = some ((get_imports_body body).1,
         (get_imports_body body).2 ++ names.map (fun n => (pyFromBase module, some n))))
    ∧ pyFromBase none = "__init__" := by
  constructor
  · intro w src body module names h
    simp [get_imports, h, get_imports_body, List.foldl_append]
  · rfl

/-- World that parses the single source `from x import y, z`. -/
def w8 : World :=
  World.mk (fun _ => false) (fun _ => false) (fun _ => false) (fun _ => none)
    (fun s =>
      if s == "from x import y, z" then
        some [PyStmt.importFrom (some "x") ["y", "z"]]
      else none)
    (fun _ => false) (fun _ _ _ => false) (fun _ _ => "")

/-- Witness for C8 on `from x import y, z`: two tuples, one per name. -/
theorem get_imports_one_tuple_per_name_witness :
    get_imports w8 "from x import y, z"
      = some ((get_imports_body []).1,
          (get_imports_body []).2
            ++ ["y", "z"].map (fun n => (pyFromBase (some "x"), some n))) :=
  get_imports_one_tuple_per_name.1 w8 "from x import y, z" [] (some "x")
    ["y", "z"] rfl

/-! Claim C9. -/

/-- Claim C9: resolution is deterministic — for a fixed world, import
list and context, any two results of `infer_import_type` coincide.  In
this embedding the resolver is a pure function of the world and its
arguments, so determinism holds by construction. -/
theorem infer_import_type_deterministic :
    ∀ (w : World) (all_imports : List (String × Option String))
      (root sdir : String) (pre : Bool) (rules : List CustomRule)
      (r₁ r₂ : Except PyExc (Finset String × Finset String)),
      infer_import_type w all_imports root sdir pre rules = r₁ →
      infer_import_type w all_imports root sdir pre rules = r₂ →
      r₁ = r₂ := by
  intro w all_imports root sdir pre rules r₁ r₂ h₁ h₂
  rw [← h₁, ← h₂]

/-- World with nothing installed, readable or on disk. -/
def w9 : World :=
  World.mk (fun _ => false) (fun _ => false) (fun _ => false) (fun _ => none)
    (fun _ => none) (fun _ => false) (fun _ _ _ => false) (fun _ _ => "")

/-- Witness for C9: two runs of the resolver on `import requests` over an
empty project both give `packages = ("requests")`. -/
theorem infer_import_type_deterministic_witness :
    (Except.ok (({"requests"} : Finset String), (∅ : Finset String))
      : Except PyExc (Finset String × Finset String))
      = Except.ok ({"requests"}, ∅) :=
  infer_import_type_deterministic w9 [("requests", none)] "/proj" "/proj" false []
    (Except.ok ({"requests"}, ∅)) (Except.ok ({"requests"}, ∅)) rfl rfl

/-! Claim C10. -/

/-- Claim C10: for a plain import (`unknown = None`) the dotted candidate
is the literal string `base + ".None"`, so the package and module probes
of steps 4 and 5 can only match filesystem entries literally named
`None` (first conjunct and second conjunct); a plain import of a
project-local package directory with a readable entry-point file is
instead classified as `base + ".__init__"` through the public-interface
step, which answers true for the absent attribute (third conjunct). -/
theorem plain_import_none_candidate :
    (∀ b : String, b ++ "." ++ pyStrOfOpt none = b ++ ".None")
    ∧ (∀ (w : World) (root sdir : String) (pre : Bool) (rules : List CustomRule)
        (b : String),
        w.isInstalled b none pre = false →
        tryRules rules root b none = none →
        w.pathExists (joinPath root (dotsToSlashes b ++ ".py")) = false →
        w.isdir (joinPath root (dotsToSlashes (b ++ ".None"))) = true →
        w.containsPythonFile (joinPath root (dotsToSlashes (b ++ ".None"))) = true →
        classifyOne w root sdir pre rules b none
          = Except.ok (Outcome.toModules (b ++ ".None" ++ ".__init__")))
    ∧ (∀ (w : World) (root sdir : String) (pre : Bool) (rules : List CustomRule)
        (b src : String),
        w.isInstalled b none pre = false →
        tryRules rules root b none = none →
        w.pathExists (joinPath root (dotsToSlashes b ++ ".py")) = false →
        w.isdir (joinPath root (dotsToSlashes (b ++ ".None"))) = false →
        w.isfile (joinPath root (dotsToSlashes (b ++ ".None") ++ ".py")) = false →
        w.isdir (joinPath root (dotsToSlashes b)) = true →
        w.readFile (joinPath (joinPath root (dotsToSlashes b)) "__init__.py") = some src →
        classifyOne w root sdir pre rules b none
          = Except.ok (Outcome.toModules (b ++ ".__init__"))) := by
  refine ⟨pyNone_dotted, ?_, ?_⟩
  · intro w root sdir pre rules b h1 h2 h3 h4 h5
    simp [classifyOne, pyNone_dotted b, h1, h2, h3, h4, h5]
  · intro w root sdir pre rules b src h1 h2 h3 h4 h5 h6 h7
    simp [classifyOne, _in_public_interface, PyValue.truthy, pyNone_dotted b,
      h1, h2, h3, h4, h5, h6, h7]

/-- World whose project root `/proj` contains a directory literally named
`np/None` holding a Python file, and a package directory `pkg` with a
readable entry-point file. -/
def w10 : World :=
  World.mk (fun _ => false)
    (fun p => p == "/proj/np/None" || p == "/proj/pkg")
    (fun _ => false)
    (fun p => if p == "/proj/pkg/__init__.py" then some "x = 1" else none)
    (fun _ => none)
    (fun p => p == "/proj/np/None")
    (fun _ _ _ => false) (fun _ _ => "")

/-- Witness for C10: the plain import of `np` matches the directory
literally named `None`, and the plain import of the package `pkg`
resolves through the public-interface step. -/
theorem plain_import_none_candidate_witness :
    classifyOne w10 "/proj" "/proj" false [] "np" none
      = Except.ok (Outcome.toModules ("np" ++ ".None" ++ ".__init__"))
    ∧ classifyOne w10 "/proj" "/proj" false [] "pkg" none
      = Except.ok (Outcome.toModules ("pkg" ++ ".__init__")) :=
  ⟨plain_import_none_candidate.2.1 w10 "/proj" "/proj" false [] "np"
      rfl rfl rfl rfl rfl,
   plain_import_none_candidate.2.2 w10 "/proj" "/proj" false [] "pkg" "x = 1"
      rfl rfl rfl rfl rfl rfl rfl⟩

end Pazel
